import Mathlib

/-!
Shallow embedding of the `LadderCalculator` class of `Ladder_main.py`
(repository Possessed66/Ladder_bot) and verification of the frozen claims.

Python floats are modelled by `ℚ`, Python ints by `ℤ`.  Python's `round`
(round-half-to-even on the value) is modelled by `pyRound`; `round(x, 2)`
by `round2`.  A Python division that can raise `ZeroDivisionError` is
modelled in `Except`: `PyErr.zeroDivision` is the uncaught exception.
The transcendental library calls (`math.degrees(math.atan ...)`,
`math.cos(math.radians ...)`, `math.sqrt`) are abstracted as an oracle
`FloatFns`; no control flow of the embedded functions depends on their
values except through the explicit zero test of `calculate_length`.
Dictionary results are modelled as structures whose optional fields are
`none` when the corresponding key is absent.  Feasibility issue messages
interpolate runtime values, so they are modelled by the inductive type
`FeasIssue` (one constructor per f-string template of the source);
all other messages are compile-time-constant strings and are kept
verbatim.
-/

namespace LadderBot

/-- Uncaught Python runtime errors relevant to this program. -/
inductive PyErr where
  | zeroDivision
deriving DecidableEq, Repr

/-- Oracle for the floating-point library functions used by the source:
`atanDeg x` stands for `math.degrees(math.atan x)`, `cosRad x` for
`math.cos(math.radians x)`, `sqrt x` for `math.sqrt x`. -/
structure FloatFns where
  atanDeg : ℚ → ℚ
  cosRad : ℚ → ℚ
  sqrt : ℚ → ℚ

/-- Python's built-in `round` to an integer: round half to even. -/
def pyRound (x : ℚ) : ℤ :=
  if x - ⌊x⌋ < 1/2 then ⌊x⌋
  else if 1/2 < x - ⌊x⌋ then ⌊x⌋ + 1
  else if ⌊x⌋ % 2 = 0 then ⌊x⌋ else ⌊x⌋ + 1

/-- Python's `round(x, 2)`. -/
def round2 (x : ℚ) : ℚ := (pyRound (x * 100) : ℚ) / 100

/-- `calculate_angle` of the source (lines 42-56).  `F.atanDeg` models
`math.degrees(math.atan ...)`; the `try/except` around it can never fire
since `atan` is total, so no error case remains after the zero test. -/
def calculate_angle (F : FloatFns) (height length : ℚ) (angle : Option ℚ) :
    Option ℚ × String :=
  match angle with
  | some a => (some a, ("Угол задан вручную"))
  | none =>
    if length = 0 then (none, ("Ошибка: длина проема не может быть 0"))
    else (some (round2 (F.atanDeg (height / length))), ("Угол рассчитан"))

/-- `check_angle` of the source (lines 58-67); `min_angle = 30`,
`max_angle = 45`. -/
def check_angle (angle : Option ℚ) : String :=
  match angle with
  | none => ("Ошибка: угол не определен")
  | some a =>
    if 30 ≤ a ∧ a ≤ 45 then ("Угол подходит")
    else ("Угол не подходит (должен быть от 30° до 45°)")

/-- `calculate_steps` of the source (lines 69-129).  Returns the 4-tuple
`(steps, message, actual_height, actual_width)`.  In mode 1 (neither
parameter given) the source evaluates `height / steps` with
`steps = round(height / 20)`; when that rounds to zero Python raises
`ZeroDivisionError`, modelled by the `.error` branch. -/
def calculate_steps (height _length : ℚ) (step_height step_width : Option ℚ) :
    Except PyErr (Option ℤ × String × Option ℚ × Option ℚ) :=
  match step_height, step_width with
  | none, none =>
    let default_height : ℚ := 20
    let default_height :=
      if ¬(15 ≤ default_height ∧ default_height ≤ 25) then
        max 15 (min 25 default_height)
      else default_height
    let steps := pyRound (height / default_height)
    if steps = 0 then .error .zeroDivision
    else .ok (some steps,
      ("Количество ступеней рассчитано (стандартные элементы 30x20 см)"),
      some (height / (steps : ℚ)), some 30)
  | some sh, none =>
    if sh ≤ 0 then
      .ok (none, ("Ошибка: высота подступенка должна быть положительной"), none, none)
    else if sh < 15 ∨ 25 < sh then
      .ok (none, ("Ошибка: высота подступенка должна быть от 15 до 25 см"), none, none)
    else
      .ok (some (pyRound (height / sh)),
        ("Количество ступеней рассчитано (высота задана)"), some sh, some 30)
  | none, some sw =>
    if sw ≤ 0 then
      .ok (none, ("Ошибка: ширина ступени должна быть положительной"), none, none)
    else if sw < 25 then
      .ok (none, ("Ошибка: ширина ступени должна быть не менее 25 см"), none, none)
    else
      let standard_height : ℚ := 20
      if 15 ≤ standard_height ∧ standard_height ≤ 25 then
        .ok (some (pyRound (height / standard_height)),
          ("Количество ступеней рассчитано (ширина задана, высота стандартная)"),
          some standard_height, some sw)
      else
        .ok (some (pyRound (height / standard_height)),
          ("Количество ступеней рассчитано (ширина задана)"),
          some standard_height, some sw)
  | some sh, some sw =>
    if sh ≤ 0 ∨ sw ≤ 0 then
      .ok (none, ("Ошибка: параметры должны быть положительными"), none, none)
    else if sh < 15 ∨ 25 < sh then
      .ok (none, ("Ошибка: высота подступенка должна быть от 15 до 25 см"), none, none)
    else if sw < 25 then
      .ok (none, ("Ошибка: ширина ступени должна быть не менее 25 см"), none, none)
    else
      .ok (some (pyRound (height / sh)),
        ("Количество ступеней рассчитано (ширина и высота заданы)"), some sh, some sw)

/-- `calculate_length` of the source (lines 131-147).  The `except`
around `length / math.cos(math.radians angle)` fires exactly when the
computed cosine is exactly zero (`ZeroDivisionError`); the `sqrt` branch
never raises. -/
def calculate_length (F : FloatFns) (height length : ℚ) (angle : Option ℚ) :
    Option ℚ × String :=
  match angle with
  | some a =>
    if F.cosRad a = 0 then (none, ("Ошибка: неверный угол"))
    else (some (round2 (length / F.cosRad a)), ("Длина лестницы рассчитана по углу"))
  | none =>
    (some (round2 (F.sqrt (height ^ 2 + length ^ 2))),
     ("Длина лестницы рассчитана по теореме Пифагора"))

/-- The parts dictionary of `calculate_parts` (lines 149-164).  Field
names translate the Russian keys: `treads` = "ступени", `risers` =
"подступенки", `stringers` = "косоуры", `balusters` = "балясины",
`handrails` = "поручни", `landings` = "площадки", `winder_treads` =
"поворотные ступени". -/
structure Parts where
  treads : ℤ
  risers : ℤ
  stringers : ℤ
  balusters : ℤ
  handrails : ℤ
  landings : ℤ
  winder_treads : ℤ
deriving DecidableEq, Repr

/-- `calculate_parts` of the source (lines 149-164). -/
def calculate_parts (steps : ℤ) (ladder_type : ℤ) : Parts :=
  let lt := if ladder_type = 1 ∨ ladder_type = 2 ∨ ladder_type = 3 then ladder_type else 1
  { treads := steps
    risers := steps
    stringers := if lt = 1 then 2 else 1
    balusters := steps + 2
    handrails := 2
    landings := if lt = 2 ∨ lt = 3 then 1 else 0
    winder_treads := if lt = 2 ∨ lt = 3 then 2 else 0 }

/-- `validate_inputs` of the source (lines 166-181): collects error
strings and joins them with `"; "` (the empty join is `""`). -/
def validate_inputs (height length : ℚ) (width : Option ℚ) : String :=
  let errors : List String :=
    (if height ≤ 0 then [("Высота должна быть положительной")] else []) ++
    (if length ≤ 0 then [("Длина проема должна быть положительной")] else []) ++
    (if 500 < height then [("Высота слишком большая (максимум 500 см)")] else []) ++
    (if 1000 < length then [("Длина проема слишком большая (максимум 1000 см)")] else []) ++
    (match width with
     | some w => if w < 80 then [("Ширина проема должна быть не менее 80 см")] else []
     | none => [])
  String.intercalate ("; ") errors

/-- Hard-failure issues appended by `check_installation_feasibility`
(lines 183-253), one constructor per f-string template, carrying the
interpolated runtime values. -/
inductive FeasIssue where
  | noSteps
  | noStepParams
  | angleUndefined
  | angleOutOfRange (angle : ℚ)
  | riserTooLow (step_height : ℚ)
  | riserTooHigh (step_height : ℚ)
  | treadTooNarrow (step_width : ℚ)
  | tooFewSteps
  | tooManySteps
  | openingTooNarrow (width : ℚ)
  | tooLong (projection length : ℚ)
deriving DecidableEq, Repr

/-- The feasibility report dictionary. -/
structure Feasibility where
  possible : Bool
  issues : List FeasIssue
  warnings : List String
deriving DecidableEq, Repr

/-- One hard check of `check_installation_feasibility`: mirrors
`if cond: feasibility["possible"] = False; feasibility["issues"].append(i)`. -/
def addIssue (st : Bool × List FeasIssue) (cond : Prop) [Decidable cond]
    (i : FeasIssue) : Bool × List FeasIssue :=
  if cond then (false, st.2 ++ [i]) else st

/-- `check_installation_feasibility` of the source (lines 183-253).
The two pre-condition blocks return immediately; the remaining checks
run in source order over a `(possible, issues)` state.  Warning strings
are compile-time constants in the source and kept verbatim. -/
def check_installation_feasibility (_height length : ℚ) (width : Option ℚ)
    (angle : Option ℚ) (steps : Option ℤ) (step_width step_height : Option ℚ)
    (horizontal_projection : ℚ) : Feasibility :=
  match steps with
  | none => ⟨false, [FeasIssue.noSteps], []⟩
  | some s =>
    if s = 0 then ⟨false, [FeasIssue.noSteps], []⟩
    else
      match step_width, step_height with
      | none, _ => ⟨false, [FeasIssue.noStepParams], []⟩
      | _, none => ⟨false, [FeasIssue.noStepParams], []⟩
      | some sw, some sh =>
        if sw ≤ 0 ∨ sh ≤ 0 then ⟨false, [FeasIssue.noStepParams], []⟩
        else
          let st0 : Bool × List FeasIssue := (true, [])
          let st1 :=
            match angle with
            | none => addIssue st0 True FeasIssue.angleUndefined
            | some a => addIssue st0 (¬(30 ≤ a ∧ a ≤ 45)) (FeasIssue.angleOutOfRange a)
          let st2 := addIssue st1 (sh < 15) (FeasIssue.riserTooLow sh)
          let st3 := addIssue st2 (25 < sh) (FeasIssue.riserTooHigh sh)
          let st4 := addIssue st3 (sw < 25) (FeasIssue.treadTooNarrow sw)
          let st5 := addIssue st4 (s < 3) FeasIssue.tooFewSteps
          let st6 := addIssue st5 (25 < s) FeasIssue.tooManySteps
          let st7 :=
            match width with
            | some wv => addIssue st6 (wv < 80) (FeasIssue.openingTooNarrow wv)
            | none => st6
          let st8 := addIssue st7 (length < horizontal_projection)
            (FeasIssue.tooLong horizontal_projection length)
          let w1 : List String :=
            if sh < 17 then
              [("Высота подступенка на нижней границе комфортного диапазона")]
            else if 23 < sh then
              [("Высота подступенка на верхней границе комфортного диапазона (стандарт 20 см)")]
            else []
          let w2 : List String :=
            if sw < 28 then [("Ширина ступени близка к минимальной (стандарт 30 см)")]
            else if 35 < sw then [("Ширина ступени больше стандартной (стандарт 30 см)")]
            else []
          ⟨st8.1, st8.2, w1 ++ w2⟩

/-- Successful footprint dictionary of `calculate_ladder_footprint`. -/
structure Footprint where
  message : String
  horizontal_projection : ℚ
  width_required : ℚ
  description : String
deriving DecidableEq, Repr

/-- Result of `calculate_ladder_footprint`: either the error dictionary
or the footprint dictionary. -/
inductive FootOut where
  | err (msg : String)
  | ok (f : Footprint)
deriving DecidableEq, Repr

/-- `calculate_ladder_footprint` of the source (lines 255-285).
Python's `steps // 2` on an `int` is floor division, `Int.fdiv`. -/
def calculate_ladder_footprint (steps : ℤ) (step_width : ℚ)
    (ladder_type : ℤ) : FootOut :=
  if steps ≤ 0 ∨ step_width ≤ 0 then
    .err ("Неверные параметры для расчета габаритов")
  else if ladder_type = 1 then
    .ok ⟨("Габариты рассчитаны"), round2 (((steps : ℚ) - 1) * step_width), 80,
         ("Прямая лестница")⟩
  else if ladder_type = 2 then
    let section_steps : ℤ := max 1 (steps.fdiv 2)
    .ok ⟨("Габариты рассчитаны"),
         round2 (2 * (((section_steps : ℚ) - 1) * step_width) + 100), 120,
         ("П-образная лестница")⟩
  else if ladder_type = 3 then
    .ok ⟨("Габариты рассчитаны"), round2 (((steps : ℚ) - 1) * step_width + 80), 100,
         ("Г-образная лестница")⟩
  else
    .ok ⟨("Габариты рассчитаны"), round2 (((steps : ℚ) - 1) * step_width), 80,
         ("Прямая лестница (по умолчанию)")⟩

/-- The `footprint.get("horizontal_projection", 0)` access of
`calculate_all` (line 424). -/
def projection_of : FootOut → ℚ
  | .err _ => 0
  | .ok f => f.horizontal_projection

/-- Does `p` occur at the start of `s`?  (`List Char` helper for the
Python substring test `pat in msg`.) -/
def chStarts : List Char → List Char → Bool
  | [], _ => true
  | _ :: _, [] => false
  | a :: p, b :: s => a == b && chStarts p s

/-- Does `p` occur anywhere inside `s`? -/
def chSub (p : List Char) : List Char → Bool
  | [] => p.isEmpty
  | b :: s => chStarts p (b :: s) || chSub p s

/-- Python's substring test `pat in s` on strings. -/
def strContains (s pat : String) : Bool := chSub pat.toList s.toList

/-- The `standard_option` dictionary of `suggest_optimal_parameters`. -/
structure StdOption where
  note : String
  steps : ℤ
  height : ℚ
  width : ℚ
  projection : ℚ
  will_fit : Bool
deriving DecidableEq, Repr

/-- The `best_option` / `minimum_option` dictionaries of
`suggest_optimal_parameters`. -/
structure BestOption where
  steps : ℤ
  height : ℚ
  width : ℚ
  projection : ℚ
deriving DecidableEq, Repr

/-- The suggestion dictionary returned by `suggest_optimal_parameters`. -/
structure Suggestions where
  message : String
  standard_option : Option StdOption := none
  best_option : Option BestOption := none
  minimum_option : Option BestOption := none
deriving DecidableEq, Repr

/-- One iteration of the `for steps in range(3, 26)` search of
`suggest_optimal_parameters` (lines 317-331), acting on the mutable
state `(max_steps, best_params)`. -/
def bestStep (height available_length : ℚ) (st : ℤ × Option BestOption)
    (steps : ℤ) : ℤ × Option BestOption :=
  let step_height := height / (steps : ℚ)
  if 15 ≤ step_height ∧ step_height ≤ 25 then
    let step_width : ℚ := 30
    let horizontal_projection := ((steps : ℚ) - 1) * step_width
    if horizontal_projection ≤ available_length then
      if st.1 < steps then
        (steps, some ⟨steps, round2 step_height, step_width, round2 horizontal_projection⟩)
      else st
    else st
  else st

/-- The whole `for steps in range(3, 26)` loop, started from
`max_steps = 0`, `best_params = None`. -/
def bestScan (height available_length : ℚ) : ℤ × Option BestOption :=
  (List.range' 3 23).foldl
    (fun st (m : ℕ) => bestStep height available_length st (m : ℤ)) (0, none)

/-- Body of `suggest_optimal_parameters` (lines 287-350) in the case
where `std_steps = round(height / 20)` is nonzero, so the division
`height / std_steps` does not raise.  The lets follow the source order:
standard option, exhaustive scan, best option, minimum option, with the
running `message` updates. -/
def suggest_ok (height available_length : ℚ) : Suggestions :=
  let msg0 : String := ("Предложения по оптимизации под стандарт 30x20 см")
  let std_steps : ℤ := pyRound (height / 20)
  let std_actual_height : ℚ := height / (std_steps : ℚ)
  let std_width : ℚ := 30
  let std_projection : ℚ := ((std_steps : ℚ) - 1) * std_width
  let std_found : Prop :=
    std_projection ≤ available_length ∧ 15 ≤ std_actual_height ∧ std_actual_height ≤ 25
  let standard_option : Option StdOption :=
    if std_found then
      some ⟨("Рекомендуемый стандартный вариант"), std_steps,
            round2 std_actual_height, std_width, round2 std_projection, true⟩
    else none
  let msg1 : String :=
    if std_found then ("Найдено решение с использованием стандартных элементов 30x20 см")
    else msg0
  let scan := bestScan height available_length
  let best_option : Option BestOption :=
    match scan.2 with
    | some bp => if scan.1 ≠ std_steps ∨ standard_option = none then some bp else none
    | none => none
  let msg2 : String :=
    if best_option ≠ none ∧ ¬ strContains msg1 ("стандарт") then
      ("Найдены подходящие параметры (ширина ступени фиксирована 30 см)")
    else msg1
  let minimum_option : Option BestOption :=
    if standard_option = none ∧ best_option = none then
      let min_steps : ℤ := max 3 (pyRound (height / 25))
      some ⟨min_steps, round2 (height / (min_steps : ℚ)), 30,
            round2 (((min_steps : ℚ) - 1) * 30)⟩
    else none
  let msg3 : String :=
    if minimum_option ≠ none then
      ("Рекомендуемые минимальные параметры (ширина ступени 30 см)")
    else msg2
  ⟨msg3, standard_option, best_option, minimum_option⟩

/-- `suggest_optimal_parameters` of the source (lines 287-350).  When
`round(height / 20) = 0` the statement `std_actual_height = height /
std_steps` (line 298) raises `ZeroDivisionError` before anything else
happens; otherwise the call returns `suggest_ok`.  The `available_width`
argument is accepted and never used, as in the source. -/
def suggest_optimal_parameters (height available_length : ℚ)
    (_available_width : Option ℚ) : Except PyErr Suggestions :=
  if pyRound (height / 20) = 0 then .error .zeroDivision
  else .ok (suggest_ok height available_length)

/-- The echo of the raw inputs stored under `result["inputs"]`. -/
structure Inputs where
  height : ℚ
  length : ℚ
  width : Option ℚ
  angle : Option ℚ
  step_height : Option ℚ
  step_width : Option ℚ
  ladder_type : ℤ
deriving DecidableEq, Repr

/-- `result["angle"]` of `calculate_all`. -/
structure AngleInfo where
  value : Option ℚ
  message : String
  status : String
deriving DecidableEq, Repr

/-- `result["steps"]` of `calculate_all`. -/
structure StepsInfo where
  count : ℤ
  message : String
  actual_height : Option ℚ
  actual_width : Option ℚ
deriving DecidableEq, Repr

/-- `result["ladder_length"]` of `calculate_all`. -/
structure LengthInfo where
  value : Option ℚ
  message : String
deriving DecidableEq, Repr

/-- The result dictionary of `calculate_all`; a field is `none` when the
corresponding key is absent from the dictionary. -/
structure CalcResult where
  inputs : Option Inputs := none
  warnings : Option (List String) := none
  angle : Option AngleInfo := none
  error : Option String := none
  steps : Option StepsInfo := none
  ladder_length : Option LengthInfo := none
  footprint : Option FootOut := none
  feasibility : Option Feasibility := none
  suggestions : Option Suggestions := none
  parts : Option Parts := none
deriving DecidableEq, Repr

/-- Python's `x if x else y` idiom `value or 0` (`None` and `0` are both
falsy and map to `0`; any other number maps to itself, so on numbers it
is `Option.getD`). -/
def orZeroQ (x : Option ℚ) : ℚ := x.getD 0

/-- `steps or 0` on the integer step count. -/
def orZeroZ (x : Option ℤ) : ℤ := x.getD 0

/-- `round(v, 2) if v else None` (line 406-407): `None` and `0` are
falsy. -/
def roundIfTruthy (x : Option ℚ) : Option ℚ :=
  match x with
  | none => none
  | some v => if v = 0 then none else some (round2 v)

/-- `calculate_all` of the source (lines 352-443).  An `.error` return
models an uncaught `ZeroDivisionError` escaping the call (possible via
`calculate_steps` in mode 1 and via both `suggest_optimal_parameters`
call sites); `.ok` returns the result dictionary. -/
def calculate_all (F : FloatFns) (height length : ℚ) (width : Option ℚ)
    (angle : Option ℚ) (step_height step_width : Option ℚ)
    (ladder_type : ℤ) : Except PyErr CalcResult :=
  let validation_error := validate_inputs height length width
  if validation_error ≠ ("") then .ok { error := some validation_error }
  else
    let inputs : Inputs := ⟨height, length, width, angle, step_height, step_width, ladder_type⟩
    let angle_pair := calculate_angle F height length angle
    let calculated_angle := angle_pair.1
    let angleInfo : AngleInfo := ⟨calculated_angle, angle_pair.2, check_angle calculated_angle⟩
    match calculate_steps height length step_height step_width with
    | .error e => .error e
    | .ok (steps?, steps_msg, actual_height?, actual_width?) =>
      match steps? with
      | none =>
        match suggest_optimal_parameters height length width with
        | .error e => .error e
        | .ok sugg =>
          .ok { inputs := some inputs, warnings := some [], angle := some angleInfo,
                error := some steps_msg, suggestions := some sugg }
      | some steps =>
        let stepsInfo : StepsInfo :=
          ⟨steps, steps_msg, roundIfTruthy actual_height?, roundIfTruthy actual_width?⟩
        let length_pair := calculate_length F height length calculated_angle
        let lengthInfo : LengthInfo := ⟨length_pair.1, length_pair.2⟩
        let fp? : Option FootOut :=
          if steps ≠ 0 ∧ orZeroQ actual_width? ≠ 0 then
            some (calculate_ladder_footprint steps (orZeroQ actual_width?) ladder_type)
          else none
        let horizontal_projection : ℚ :=
          match fp? with
          | some fp => projection_of fp
          | none => 0
        let feasibility := check_installation_feasibility height length width
          (some (orZeroQ calculated_angle)) (some (orZeroZ (some steps)))
          (some (orZeroQ actual_width?)) (some (orZeroQ actual_height?))
          horizontal_projection
        let base : CalcResult :=
          { inputs := some inputs, warnings := some [], angle := some angleInfo,
            steps := some stepsInfo, ladder_length := some lengthInfo,
            footprint := fp?, feasibility := some feasibility,
            parts := some (calculate_parts steps ladder_type) }
        if feasibility.possible = false then
          match suggest_optimal_parameters height length width with
          | .error e => .error e
          | .ok sugg => .ok { base with suggestions := some sugg }
        else .ok base

/-- All-zero stand-in for the float oracle, used for concrete runs where
no claim depends on the transcendental values. -/
def F0 : FloatFns := ⟨fun _ => 0, fun _ => 0, fun _ => 0⟩

/-- Oracle whose cosine is the constant 1, standing in for any execution
in which `math.cos(math.radians angle)` is nonzero. -/
def Fone : FloatFns := ⟨fun _ => 0, fun _ => 1, fun _ => 0⟩

/-- Step count of a `calculate_steps` result (for concrete statements). -/
def stepsOf (e : Except PyErr (Option ℤ × String × Option ℚ × Option ℚ)) : Option ℤ :=
  match e with
  | .ok (s, _, _, _) => s
  | .error _ => none

/-- Actual riser height of a `calculate_steps` result. -/
def riserOf (e : Except PyErr (Option ℤ × String × Option ℚ × Option ℚ)) : Option ℚ :=
  match e with
  | .ok (_, _, ah, _) => ah
  | .error _ => none

/-- The result dictionary of a non-raising `calculate_all` run. -/
def resOf (e : Except PyErr CalcResult) : CalcResult :=
  match e with
  | .ok r => r
  | .error _ => {}

/-- The suggestion set of a non-raising `suggest_optimal_parameters` run. -/
def suggOf (e : Except PyErr Suggestions) : Suggestions :=
  match e with
  | .ok s => s
  | .error _ => ⟨(""), none, none, none⟩

/-- The feasibility report of a non-raising `calculate_all` run. -/
def feasOf (e : Except PyErr CalcResult) : Feasibility :=
  (resOf e).feasibility.getD ⟨true, [], []⟩

/-- Eligibility test of one loop iteration of
`suggest_optimal_parameters`: the riser `height / steps` lies in
`[15, 25]` and the projection `(steps - 1) * 30` fits the available
length (grouped as the two `if`s of the source loop). -/
def eligibleStep (height available_length : ℚ) (n : ℤ) : Prop :=
  (15 ≤ height / (n : ℚ) ∧ height / (n : ℚ) ≤ 25) ∧
  ((n : ℚ) - 1) * 30 ≤ available_length

instance (height available_length : ℚ) (n : ℤ) :
    Decidable (eligibleStep height available_length n) := by
  unfold eligibleStep; infer_instance

/-- A candidate of the `suggest` search: a step count in `[3, 25]` that
passes `eligibleStep`. -/
def eligibleCandidate (height available_length : ℚ) (n : ℤ) : Prop :=
  3 ≤ n ∧ n ≤ 25 ∧ eligibleStep height available_length n

instance (height available_length : ℚ) (n : ℤ) :
    Decidable (eligibleCandidate height available_length n) := by
  unfold eligibleCandidate; infer_instance

/-- The `best_params` record the loop builds for step count `n`. -/
def mkBestOption (height : ℚ) (n : ℤ) : BestOption :=
  ⟨n, round2 (height / (n : ℚ)), 30, round2 (((n : ℚ) - 1) * 30)⟩

/-- State of the suggestion loop after the candidates `3, ..., 3 + k - 1`
have been processed. -/
def bestScanAux (height available_length : ℚ) (k : ℕ) : ℤ × Option BestOption :=
  (List.range' 3 k).foldl
    (fun st (m : ℕ) => bestStep height available_length st (m : ℤ)) (0, none)

lemma pyRound_ge_floor (x : ℚ) : ⌊x⌋ ≤ pyRound x := by
  unfold pyRound; split_ifs <;> omega

lemma pyRound_le_floor_add_one (x : ℚ) : pyRound x ≤ ⌊x⌋ + 1 := by
  unfold pyRound; split_ifs <;> omega

lemma pyRound_nonneg {x : ℚ} (h : 0 ≤ x) : 0 ≤ pyRound x :=
  le_trans (Int.floor_nonneg.mpr h) (pyRound_ge_floor x)

lemma pyRound_mono {x y : ℚ} (h : x ≤ y) : pyRound x ≤ pyRound y := by
  rcases lt_or_eq_of_le (Int.floor_le_floor h : ⌊x⌋ ≤ ⌊y⌋) with hf | hf
  · calc pyRound x ≤ ⌊x⌋ + 1 := pyRound_le_floor_add_one x
      _ ≤ ⌊y⌋ := by omega
      _ ≤ pyRound y := pyRound_ge_floor y
  · unfold pyRound
    rw [← hf]
    have hxy : x - (⌊x⌋ : ℚ) ≤ y - (⌊x⌋ : ℚ) := by linarith
    split_ifs <;> first | omega | linarith

lemma round2_mono {x y : ℚ} (h : x ≤ y) : round2 x ≤ round2 y := by
  unfold round2
  have hc : ((pyRound (x * 100) : ℤ) : ℚ) ≤ ((pyRound (y * 100) : ℤ) : ℚ) :=
    Int.cast_le.mpr (pyRound_mono (by linarith))
  linarith

lemma addIssue_inv {st : Bool × List FeasIssue} {c : Prop} [Decidable c]
    {i : FeasIssue} (h : st.1 = true → st.2 = []) :
    (addIssue st c i).1 = true → (addIssue st c i).2 = [] := by
  unfold addIssue; split <;> simp_all

lemma addIssue_true {st : Bool × List FeasIssue} {c : Prop} [Decidable c]
    {i : FeasIssue} (h : (addIssue st c i).1 = true) : st.1 = true ∧ ¬c := by
  unfold addIssue at h
  split at h
  · simp_all
  · exact ⟨h, by assumption⟩

lemma mem_addIssue {st : Bool × List FeasIssue} {c : Prop} [Decidable c]
    {i j : FeasIssue} (h : j ∈ (addIssue st c i).2) : j ∈ st.2 ∨ (c ∧ j = i) := by
  unfold addIssue at h
  split at h
  · rcases List.mem_append.mp h with h' | h'
    · exact Or.inl h'
    · exact Or.inr ⟨by assumption, by simpa using h'⟩
  · exact Or.inl h

/-- C1: the claim says `calculate_all` returns a result for every input
accepted by raw validation and never raises.  The code violates this:
`height = 5` (with `length = 100`, nothing else supplied) passes
validation, but mode 1 of `calculate_steps` computes
`steps = round(5 / 20) = 0` and then evaluates `5 / 0`, so the call
raises an uncaught `ZeroDivisionError` — here, for every float oracle,
the embedded run ends in `PyErr.zeroDivision`. -/
theorem C1_calculate_all_raises (F : FloatFns) :
    calculate_all F 5 100 none none none none 1 = Except.error PyErr.zeroDivision := by
  norm_num [calculate_all, validate_inputs, calculate_steps, pyRound, String.intercalate]

/-- C9: the claim says `calculate_length` fails when the cosine is
undefined for the division, in particular at `angle = 90`.  In the code
the `except` branch fires exactly when `math.cos(math.radians angle)`
is *exactly* zero; at 90° IEEE doubles give `6.123233995736766e-17 ≠ 0`,
so the real program returns a huge numeric length instead of failing.
This theorem evaluates the embedding at the failing input under both
cosine models: with any nonzero computed cosine (oracle `Fone`) the call
returns a numeric length with the success message, and only with an
exactly-zero computed cosine (oracle `F0`) does it fail. -/
theorem C9_length_at_90_hinges_on_exact_zero_cosine :
    calculate_length Fone 100 100 (some 90) =
      (some 100, ("Длина лестницы рассчитана по углу")) ∧
    calculate_length F0 100 100 (some 90) = (none, ("Ошибка: неверный угол")) := by
  constructor
  · norm_num [calculate_length, Fone, round2, pyRound]
  · norm_num [calculate_length, F0]

/-- C3 counterexample: in mode 2 (`step_height = 20` supplied,
`height = 7`) `calculate_steps` succeeds (no failure is reported) yet
returns `stepCount = round(7 / 20) = 0`, refuting the claim that every
non-failing resolution in modes 2-4 returns `stepCount ≥ 1`. -/
theorem C3_counterexample :
    stepsOf (calculate_steps 7 100 (some 20) none) = some 0 := by
  norm_num [calculate_steps, stepsOf, pyRound]

/-- C3 (amended): for inputs accepted by validation, a step resolution
that does not fail returns `stepCount ≥ 0` (not `≥ 1`) in modes 2-4;
in mode 1 (no riser or tread width supplied) it returns `stepCount ≥ 1`
and the actual riser height `height / stepCount`, whose product with
`stepCount` is exactly the input height. -/
theorem C3_steps_amended (height length : ℚ) (sh sw : Option ℚ) (s : ℤ)
    (msg : String) (ah aw : Option ℚ)
    (hh : 0 < height) (_hh5 : height ≤ 500) (_hl : 0 < length) (_hl10 : length ≤ 1000)
    (hok : calculate_steps height length sh sw = .ok (some s, msg, ah, aw)) :
    0 ≤ s ∧ (sh = none → sw = none →
      1 ≤ s ∧ ah = some (height / (s : ℚ)) ∧ (height / (s : ℚ)) * (s : ℚ) = height) := by
  rcases sh with _ | shv
  · rcases sw with _ | swv
    · -- mode 1
      rw [calculate_steps] at hok
      norm_num at hok
      split_ifs at hok with hz
      simp only [Except.ok.injEq, Prod.mk.injEq, Option.some.injEq] at hok
      obtain ⟨hs, -, hah, -⟩ := hok
      subst hs
      have h0 : (0 : ℚ) ≤ height / 20 := div_nonneg hh.le (by norm_num)
      have hge : 0 ≤ pyRound (height / 20) := pyRound_nonneg h0
      have h1 : 1 ≤ pyRound (height / 20) := by omega
      refine ⟨hge, fun _ _ => ⟨h1, hah.symm, ?_⟩⟩
      have hne : ((pyRound (height / 20) : ℤ) : ℚ) ≠ 0 :=
        Int.cast_ne_zero.mpr (by omega)
      exact div_mul_cancel₀ height hne
    · -- mode 3
      rw [calculate_steps] at hok
      norm_num at hok
      split_ifs at hok with hpos hwid
      · simp only [Except.ok.injEq, Prod.mk.injEq] at hok
        exact Option.noConfusion hok.1
      · simp only [Except.ok.injEq, Prod.mk.injEq] at hok
        exact Option.noConfusion hok.1
      · simp only [Except.ok.injEq, Prod.mk.injEq, Option.some.injEq] at hok
        obtain ⟨hs, -⟩ := hok
        subst hs
        have h0 : (0 : ℚ) ≤ height / 20 := div_nonneg hh.le (by norm_num)
        exact ⟨pyRound_nonneg h0, by simp⟩
  · rcases sw with _ | swv
    · -- mode 2
      rw [calculate_steps] at hok
      split_ifs at hok with hpos hrange
      · simp only [Except.ok.injEq, Prod.mk.injEq] at hok
        exact Option.noConfusion hok.1
      · simp only [Except.ok.injEq, Prod.mk.injEq] at hok
        exact Option.noConfusion hok.1
      · simp only [Except.ok.injEq, Prod.mk.injEq, Option.some.injEq] at hok
        obtain ⟨hs, -⟩ := hok
        subst hs
        push_neg at hpos
        have h0 : (0 : ℚ) ≤ height / shv := div_nonneg hh.le hpos.le
        exact ⟨pyRound_nonneg h0, by simp⟩
    · -- mode 4
      rw [calculate_steps] at hok
      split_ifs at hok with hpos hrange hwid
      · simp only [Except.ok.injEq, Prod.mk.injEq] at hok
        exact Option.noConfusion hok.1
      · simp only [Except.ok.injEq, Prod.mk.injEq] at hok
        exact Option.noConfusion hok.1
      · simp only [Except.ok.injEq, Prod.mk.injEq] at hok
        exact Option.noConfusion hok.1
      · simp only [Except.ok.injEq, Prod.mk.injEq, Option.some.injEq] at hok
        obtain ⟨hs, -⟩ := hok
        subst hs
        push_neg at hpos
        have h0 : (0 : ℚ) ≤ height / shv := div_nonneg hh.le hpos.1.le
        exact ⟨pyRound_nonneg h0, by simp⟩

/-- Witness for `C3_steps_amended` at `height = 270`, `length = 400`,
mode 1: the resolution yields 14 steps and `(270 / 14) × 14 = 270`. -/
theorem C3_witness :
    stepsOf (calculate_steps 270 400 none none) = some 14 ∧
    (1 ≤ (14 : ℤ) ∧ (270 / ((14 : ℤ) : ℚ)) * ((14 : ℤ) : ℚ) = 270) := by
  constructor
  · norm_num [calculate_steps, stepsOf, pyRound]
  · have h := C3_steps_amended 270 400 none none 14
      ("Количество ступеней рассчитано (стандартные элементы 30x20 см)")
      (some (270 / ((14 : ℤ) : ℚ))) (some 30)
      (by norm_num) (by norm_num) (by norm_num) (by norm_num)
      (by norm_num [calculate_steps, pyRound])
    exact ⟨(h.2 rfl rfl).1, (h.2 rfl rfl).2.2⟩

/-- C5 counterexample: in mode 1 with `height = 11` the resolution does
not fail (`stepCount = round(11 / 20) = 1`), yet the re-derived riser is
`11 / 1 = 11 < 15`, outside the claimed invariant `[15, 25]`. -/
theorem C5_counterexample :
    riserOf (calculate_steps 11 100 none none) = some 11 ∧ (11 : ℚ) < 15 := by
  constructor
  · norm_num [calculate_steps, riserOf, pyRound]
  · norm_num

/-- C5 (amended): every non-failing step resolution satisfies the
data-model invariant (riser in `[15, 25]`, tread width `≥ 25`) in modes
2-4; in mode 1 the tread width is the standard 30 (hence `≥ 25`), but
the re-derived riser `height / stepCount` can fall outside `[15, 25]`. -/
theorem C5_stepspec_amended (height length : ℚ) (sh sw : Option ℚ) (s : ℤ)
    (msg : String) (ah aw : ℚ)
    (hok : calculate_steps height length sh sw = .ok (some s, msg, some ah, some aw)) :
    (¬(sh = none ∧ sw = none) → 15 ≤ ah ∧ ah ≤ 25 ∧ 25 ≤ aw) ∧
    (sh = none ∧ sw = none → aw = 30) := by
  rcases sh with _ | shv
  · rcases sw with _ | swv
    · -- mode 1
      rw [calculate_steps] at hok
      norm_num at hok
      split_ifs at hok with hz
      simp only [Except.ok.injEq, Prod.mk.injEq, Option.some.injEq] at hok
      obtain ⟨-, -, -, haw⟩ := hok
      exact ⟨fun hc => absurd ⟨rfl, rfl⟩ hc, fun _ => haw.symm⟩
    · -- mode 3
      rw [calculate_steps] at hok
      norm_num at hok
      split_ifs at hok with hpos hwid
      · simp only [Except.ok.injEq, Prod.mk.injEq] at hok
        exact Option.noConfusion hok.2.2.1
      · simp only [Except.ok.injEq, Prod.mk.injEq] at hok
        exact Option.noConfusion hok.2.2.1
      · simp only [Except.ok.injEq, Prod.mk.injEq, Option.some.injEq] at hok
        obtain ⟨-, -, hah, haw⟩ := hok
        subst hah; subst haw
        push_neg at hwid
        exact ⟨fun _ => ⟨by norm_num, by norm_num, hwid⟩, by simp⟩
  · rcases sw with _ | swv
    · -- mode 2
      rw [calculate_steps] at hok
      split_ifs at hok with hpos hrange
      · simp only [Except.ok.injEq, Prod.mk.injEq] at hok
        exact Option.noConfusion hok.2.2.1
      · simp only [Except.ok.injEq, Prod.mk.injEq] at hok
        exact Option.noConfusion hok.2.2.1
      · simp only [Except.ok.injEq, Prod.mk.injEq, Option.some.injEq] at hok
        obtain ⟨-, -, hah, haw⟩ := hok
        subst hah; subst haw
        push_neg at hrange
        exact ⟨fun _ => ⟨hrange.1, hrange.2, by norm_num⟩, by simp⟩
    · -- mode 4
      rw [calculate_steps] at hok
      split_ifs at hok with hpos hrange hwid
      · simp only [Except.ok.injEq, Prod.mk.injEq] at hok
        exact Option.noConfusion hok.2.2.1
      · simp only [Except.ok.injEq, Prod.mk.injEq] at hok
        exact Option.noConfusion hok.2.2.1
      · simp only [Except.ok.injEq, Prod.mk.injEq] at hok
        exact Option.noConfusion hok.2.2.1
      · simp only [Except.ok.injEq, Prod.mk.injEq, Option.some.injEq] at hok
        obtain ⟨-, -, hah, haw⟩ := hok
        subst hah; subst haw
        push_neg at hrange hwid
        exact ⟨fun _ => ⟨hrange.1, hrange.2, hwid⟩, by simp⟩

/-- Witness for `C5_stepspec_amended` in mode 4 at `height = 100`,
`step_height = 20`, `step_width = 30`. -/
theorem C5_witness :
    stepsOf (calculate_steps 100 100 (some 20) (some 30)) = some 5 ∧
    ((15 : ℚ) ≤ 20 ∧ (20 : ℚ) ≤ 25 ∧ (25 : ℚ) ≤ 30) := by
  constructor
  · norm_num [calculate_steps, stepsOf, pyRound]
  · exact (C5_stepspec_amended 100 100 (some 20) (some 30) 5
      ("Количество ступеней рассчитано (ширина и высота заданы)") 20 30
      (by norm_num [calculate_steps, pyRound])).1 (by simp)

/-- C2: a feasibility report has `possible = false` whenever `issues` is
non-empty, and `possible` is never `true` while any hard-check condition
is violated: angle absent or outside `[30, 45]`, riser height outside
`[15, 25]`, tread width `< 25`, step count outside `[3, 25]`, opening
width present and `< 80`, or horizontal projection greater than the
opening length. -/
theorem C2_feasibility_sound (height length : ℚ) (width : Option ℚ)
    (angle : Option ℚ) (steps : Option ℤ) (sw sh : Option ℚ) (hp : ℚ) :
    ((check_installation_feasibility height length width angle steps sw sh hp).issues ≠ [] →
      (check_installation_feasibility height length width angle steps sw sh hp).possible = false) ∧
    ((check_installation_feasibility height length width angle steps sw sh hp).possible = true →
      angle ≠ none ∧ (∀ a, angle = some a → 30 ≤ a ∧ a ≤ 45) ∧
      (∀ x, sh = some x → 15 ≤ x ∧ x ≤ 25) ∧
      (∀ x, sw = some x → 25 ≤ x) ∧
      (∀ n, steps = some n → 3 ≤ n ∧ n ≤ 25) ∧
      (∀ x, width = some x → 80 ≤ x) ∧
      hp ≤ length) := by
  rcases steps with _ | s
  · constructor
    · intro _; simp [check_installation_feasibility]
    · intro hposs; simp [check_installation_feasibility] at hposs
  · rcases eq_or_ne s 0 with rfl | hs0
    · constructor
      · intro _; simp [check_installation_feasibility]
      · intro hposs; simp [check_installation_feasibility] at hposs
    · rcases sw with _ | swv
      · constructor
        · intro _; simp [check_installation_feasibility, hs0]
        · intro hposs; simp [check_installation_feasibility, hs0] at hposs
      · rcases sh with _ | shv
        · constructor
          · intro _; simp [check_installation_feasibility, hs0]
          · intro hposs; simp [check_installation_feasibility, hs0] at hposs
        · by_cases hneg : swv ≤ 0 ∨ shv ≤ 0
          · constructor
            · intro _; simp [check_installation_feasibility, hs0, hneg]
            · intro hposs; simp [check_installation_feasibility, hs0, hneg] at hposs
          · rcases width with _ | wv
            · rcases angle with _ | av
              · constructor
                · intro hne
                  by_contra hb
                  simp only [Bool.not_eq_false] at hb
                  simp only [check_installation_feasibility, hs0, hneg] at hb hne
                  norm_num at hb hne
                  exact hne ((addIssue_inv (addIssue_inv (addIssue_inv (addIssue_inv
                    (addIssue_inv (addIssue_inv (addIssue_inv (fun _ => rfl)))))))) hb)
                · intro hposs
                  simp only [check_installation_feasibility, hs0, hneg] at hposs
                  norm_num at hposs
                  have e8 := addIssue_true hposs
                  have e6 := addIssue_true e8.1
                  have e5 := addIssue_true e6.1
                  have e4 := addIssue_true e5.1
                  have e3 := addIssue_true e4.1
                  have e2 := addIssue_true e3.1
                  have e1 := addIssue_true e2.1
                  exact absurd trivial e1.2
              · constructor
                · intro hne
                  by_contra hb
                  simp only [Bool.not_eq_false] at hb
                  simp only [check_installation_feasibility, hs0, hneg] at hb hne
                  norm_num at hb hne
                  exact hne ((addIssue_inv (addIssue_inv (addIssue_inv (addIssue_inv
                    (addIssue_inv (addIssue_inv (addIssue_inv (fun _ => rfl)))))))) hb)
                · intro hposs
                  simp only [check_installation_feasibility, hs0, hneg] at hposs
                  norm_num at hposs
                  have e8 := addIssue_true hposs
                  have e6 := addIssue_true e8.1
                  have e5 := addIssue_true e6.1
                  have e4 := addIssue_true e5.1
                  have e3 := addIssue_true e4.1
                  have e2 := addIssue_true e3.1
                  have e1 := addIssue_true e2.1
                  have hang : 30 ≤ av ∧ av ≤ 45 := by
                    push_neg at e1
                    exact e1.2
                  refine ⟨by simp, ?_, ?_, ?_, ?_, by simp, not_lt.mp e8.2⟩
                  · intro a ha
                    rw [Option.some.injEq] at ha
                    subst ha
                    exact hang
                  · intro x hx
                    rw [Option.some.injEq] at hx
                    subst hx
                    exact ⟨not_lt.mp e2.2, not_lt.mp e3.2⟩
                  · intro x hx
                    rw [Option.some.injEq] at hx
                    subst hx
                    exact not_lt.mp e4.2
                  · intro n hn
                    rw [Option.some.injEq] at hn
                    subst hn
                    exact ⟨not_lt.mp e5.2, not_lt.mp e6.2⟩
            · rcases angle with _ | av
              · constructor
                · intro hne
                  by_contra hb
                  simp only [Bool.not_eq_false] at hb
                  simp only [check_installation_feasibility, hs0, hneg] at hb hne
                  norm_num at hb hne
                  exact hne ((addIssue_inv (addIssue_inv (addIssue_inv (addIssue_inv
                    (addIssue_inv (addIssue_inv (addIssue_inv (addIssue_inv
                    (fun _ => rfl))))))))) hb)
                · intro hposs
                  simp only [check_installation_feasibility, hs0, hneg] at hposs
                  norm_num at hposs
                  have e8 := addIssue_true hposs
                  have e7 := addIssue_true e8.1
                  have e6 := addIssue_true e7.1
                  have e5 := addIssue_true e6.1
                  have e4 := addIssue_true e5.1
                  have e3 := addIssue_true e4.1
                  have e2 := addIssue_true e3.1
                  have e1 := addIssue_true e2.1
                  exact absurd trivial e1.2
              · constructor
                · intro hne
                  by_contra hb
                  simp only [Bool.not_eq_false] at hb
                  simp only [check_installation_feasibility, hs0, hneg] at hb hne
                  norm_num at hb hne
                  exact hne ((addIssue_inv (addIssue_inv (addIssue_inv (addIssue_inv
                    (addIssue_inv (addIssue_inv (addIssue_inv (addIssue_inv
                    (fun _ => rfl))))))))) hb)
                · intro hposs
                  simp only [check_installation_feasibility, hs0, hneg] at hposs
                  norm_num at hposs
                  have e8 := addIssue_true hposs
                  have e7 := addIssue_true e8.1
                  have e6 := addIssue_true e7.1
                  have e5 := addIssue_true e6.1
                  have e4 := addIssue_true e5.1
                  have e3 := addIssue_true e4.1
                  have e2 := addIssue_true e3.1
                  have e1 := addIssue_true e2.1
                  have hang : 30 ≤ av ∧ av ≤ 45 := by
                    push_neg at e1
                    exact e1.2
                  refine ⟨by simp, ?_, ?_, ?_, ?_, ?_, not_lt.mp e8.2⟩
                  · intro a ha
                    rw [Option.some.injEq] at ha
                    subst ha
                    exact hang
                  · intro x hx
                    rw [Option.some.injEq] at hx
                    subst hx
                    exact ⟨not_lt.mp e2.2, not_lt.mp e3.2⟩
                  · intro x hx
                    rw [Option.some.injEq] at hx
                    subst hx
                    exact not_lt.mp e4.2
                  · intro n hn
                    rw [Option.some.injEq] at hn
                    subst hn
                    exact ⟨not_lt.mp e5.2, not_lt.mp e6.2⟩
                  · intro x hx
                    rw [Option.some.injEq] at hx
                    subst hx
                    exact not_lt.mp e7.2

/-- Witness for `C2_feasibility_sound`: a report with a too-small step
count has `possible = false`; a fully conforming report with
`possible = true` yields the angle hard-check bounds. -/
theorem C2_witness :
    (check_installation_feasibility 100 100 none (some 35) (some 2)
      (some 30) (some 20) 50).possible = false ∧
    ((30 : ℚ) ≤ 35 ∧ (35 : ℚ) ≤ 45) := by
  constructor
  · exact (C2_feasibility_sound 100 100 none (some 35) (some 2) (some 30) (some 20) 50).1
      (by norm_num [check_installation_feasibility, addIssue])
  · exact ((C2_feasibility_sound 270 400 (some 100) (some 35) (some 14) (some 30)
      (some 19) 390).2
      (by norm_num [check_installation_feasibility, addIssue])).2.1 35 rfl

/-- C8: for every fixed tread width `> 0` and every layout type
(straight, U-shaped, L-shaped, or unknown), the horizontal projection
computed by `calculate_ladder_footprint` is monotonically non-decreasing
in the step count. -/
theorem C8_footprint_mono (w : ℚ) (t : ℤ) (s1 s2 : ℤ)
    (hw : 0 < w) (h1 : 0 < s1) (h12 : s1 ≤ s2) :
    projection_of (calculate_ladder_footprint s1 w t) ≤
    projection_of (calculate_ladder_footprint s2 w t) := by
  have h2 : 0 < s2 := lt_of_lt_of_le h1 h12
  have hg1 : ¬(s1 ≤ 0 ∨ w ≤ 0) := by push_neg; exact ⟨h1, hw⟩
  have hg2 : ¬(s2 ≤ 0 ∨ w ≤ 0) := by push_neg; exact ⟨h2, hw⟩
  have hcast : (s1 : ℚ) ≤ (s2 : ℚ) := by exact_mod_cast h12
  unfold calculate_ladder_footprint
  rw [if_neg hg1, if_neg hg2]
  by_cases ht1 : t = 1
  · rw [if_pos ht1, if_pos ht1]
    simp only [projection_of]
    exact round2_mono (mul_le_mul_of_nonneg_right (by linarith) hw.le)
  · rw [if_neg ht1, if_neg ht1]
    by_cases ht2 : t = 2
    · rw [if_pos ht2, if_pos ht2]
      simp only [projection_of]
      have hf : s1.fdiv 2 ≤ s2.fdiv 2 := by
        rw [Int.fdiv_eq_ediv _ (by norm_num), Int.fdiv_eq_ediv _ (by norm_num)]
        exact Int.ediv_le_ediv (by norm_num) h12
      have hm : max 1 (s1.fdiv 2) ≤ max 1 (s2.fdiv 2) := max_le_max le_rfl hf
      have hmc : ((max 1 (s1.fdiv 2) : ℤ) : ℚ) ≤ ((max 1 (s2.fdiv 2) : ℤ) : ℚ) :=
        Int.cast_le.mpr hm
      refine round2_mono ?_
      have := mul_le_mul_of_nonneg_right (by linarith :
        ((max 1 (s1.fdiv 2) : ℤ) : ℚ) - 1 ≤ ((max 1 (s2.fdiv 2) : ℤ) : ℚ) - 1) hw.le
      linarith
    · rw [if_neg ht2, if_neg ht2]
      by_cases ht3 : t = 3
      · rw [if_pos ht3, if_pos ht3]
        simp only [projection_of]
        refine round2_mono ?_
        have := mul_le_mul_of_nonneg_right (by linarith : (s1 : ℚ) - 1 ≤ (s2 : ℚ) - 1) hw.le
        linarith
      · rw [if_neg ht3, if_neg ht3]
        simp only [projection_of]
        exact round2_mono (mul_le_mul_of_nonneg_right (by linarith) hw.le)

/-- Witness for `C8_footprint_mono`: U-shaped layout, tread width 30,
5 ≤ 9 steps. -/
theorem C8_witness :
    projection_of (calculate_ladder_footprint 5 30 2) ≤
    projection_of (calculate_ladder_footprint 9 30 2) :=
  C8_footprint_mono 30 2 5 9 (by norm_num) (by norm_num) (by norm_num)

lemma mkBestOption_steps (height : ℚ) (n : ℤ) : (mkBestOption height n).steps = n := rfl

lemma bestStep_elig {height available_length : ℚ} {n : ℤ} (st : ℤ × Option BestOption)
    (he : eligibleStep height available_length n) (hlt : st.1 < n) :
    bestStep height available_length st n = (n, some (mkBestOption height n)) := by
  simp only [bestStep, mkBestOption]
  rw [if_pos he.1, if_pos he.2, if_pos hlt]

lemma bestStep_not_elig {height available_length : ℚ} {n : ℤ} (st : ℤ × Option BestOption)
    (he : ¬ eligibleStep height available_length n) :
    bestStep height available_length st n = st := by
  simp only [bestStep]
  by_cases h1 : 15 ≤ height / (n : ℚ) ∧ height / (n : ℚ) ≤ 25
  · rw [if_pos h1]
    by_cases h2 : ((n : ℚ) - 1) * 30 ≤ available_length
    · exact absurd ⟨h1, h2⟩ he
    · rw [if_neg h2]
  · rw [if_neg h1]

lemma bestScanAux_succ (height available_length : ℚ) (k : ℕ) :
    bestScanAux height available_length (k + 1) =
      bestStep height available_length (bestScanAux height available_length k)
        ((3 + k : ℕ) : ℤ) := by
  unfold bestScanAux
  rw [List.range'_1_concat, List.foldl_append]
  rfl

lemma bestScanAux_inv (height available_length : ℚ) (k : ℕ) :
    ((bestScanAux height available_length k).2 = none →
      (bestScanAux height available_length k).1 = 0 ∧
      ∀ n : ℤ, 3 ≤ n → n < 3 + (k : ℤ) → ¬ eligibleStep height available_length n) ∧
    (∀ b, (bestScanAux height available_length k).2 = some b →
      (bestScanAux height available_length k).1 = b.steps ∧
      b = mkBestOption height b.steps ∧ 3 ≤ b.steps ∧ b.steps < 3 + (k : ℤ) ∧
      eligibleStep height available_length b.steps ∧
      ∀ n : ℤ, 3 ≤ n → n < 3 + (k : ℤ) →
        eligibleStep height available_length n → n ≤ b.steps) := by
  induction k with
  | zero =>
    constructor
    · intro _
      exact ⟨rfl, fun n h3 hlt => absurd h3 (by omega)⟩
    · intro b hb
      exact absurd hb (by simp [bestScanAux])
  | succ k ih =>
    rw [bestScanAux_succ]
    have hcast : ((3 + k : ℕ) : ℤ) = 3 + (k : ℤ) := by push_cast; ring
    by_cases he : eligibleStep height available_length ((3 + k : ℕ) : ℤ)
    · have hlt : (bestScanAux height available_length k).1 < ((3 + k : ℕ) : ℤ) := by
        rcases hb : (bestScanAux height available_length k).2 with _ | b
        · rw [(ih.1 hb).1, hcast]; omega
        · have hfacts := ih.2 b hb
          rw [hfacts.1, hcast]
          have := hfacts.2.2.2.1
          omega
      rw [bestStep_elig _ he hlt]
      constructor
      · intro hnone; exact Option.noConfusion hnone
      · intro b hb
        rw [Option.some.injEq] at hb
        subst hb
        refine ⟨rfl, rfl, ?_, ?_, he, ?_⟩
        · simp only [mkBestOption]; omega
        · simp only [mkBestOption]; push_cast; omega
        · intro n h3 hlt' _
          simp only [mkBestOption]
          push_cast at hlt'
          omega
    · rw [bestStep_not_elig _ he]
      constructor
      · intro hnone
        obtain ⟨h1, h2⟩ := ih.1 hnone
        refine ⟨h1, ?_⟩
        intro n h3 hlt'
        rcases lt_or_ge n (3 + (k : ℤ)) with hlt2 | hge
        · exact h2 n h3 hlt2
        · have hn : n = 3 + (k : ℤ) := by push_cast at hlt'; omega
          rw [hcast] at he
          rwa [hn]
      · intro b hb
        obtain ⟨f1, f2, f3, f4, f5, f6⟩ := ih.2 b hb
        refine ⟨f1, f2, f3, by push_cast at f4 ⊢; omega, f5, ?_⟩
        intro n h3 hlt' hel
        rcases lt_or_ge n (3 + (k : ℤ)) with hlt2 | hge
        · exact f6 n h3 hlt2 hel
        · have hn : n = 3 + (k : ℤ) := by push_cast at hlt'; omega
          rw [hcast] at he
          exact absurd (hn ▸ hel) he

lemma bestScan_spec (height available_length : ℚ) :
    ((bestScan height available_length).2 = none →
      ∀ n : ℤ, ¬ eligibleCandidate height available_length n) ∧
    (∀ b, (bestScan height available_length).2 = some b →
      (bestScan height available_length).1 = b.steps ∧
      b = mkBestOption height b.steps ∧
      eligibleCandidate height available_length b.steps ∧
      ∀ n, eligibleCandidate height available_length n → n ≤ b.steps) := by
  have hinv := bestScanAux_inv height available_length 23
  have heq : bestScan height available_length = bestScanAux height available_length 23 := rfl
  rw [heq]
  constructor
  · intro hnone n hel
    obtain ⟨h3, h25, he⟩ := hel
    exact (hinv.1 hnone).2 n h3 (by push_cast; omega) he
  · intro b hb
    obtain ⟨f1, f2, f3, f4, f5, f6⟩ := hinv.2 b hb
    refine ⟨f1, f2, ⟨f3, by push_cast at f4; omega, f5⟩, ?_⟩
    intro n hel
    obtain ⟨h3, h25, he⟩ := hel
    exact f6 n h3 (by push_cast; omega) he

lemma suggest_ok_of {height available_length : ℚ} {aw : Option ℚ} {s : Suggestions}
    (hs : suggest_optimal_parameters height available_length aw = .ok s) :
    s = suggest_ok height available_length ∧ pyRound (height / 20) ≠ 0 := by
  unfold suggest_optimal_parameters at hs
  split_ifs at hs with hz
  rw [Except.ok.injEq] at hs
  exact ⟨hs.symm, hz⟩

lemma suggest_ok_best (height available_length : ℚ) :
    (suggest_ok height available_length).best_option =
      (match (bestScan height available_length).2 with
       | some bp =>
         if (bestScan height available_length).1 ≠ pyRound (height / 20) ∨
            (suggest_ok height available_length).standard_option = none then some bp
         else none
       | none => none) := by
  simp only [suggest_ok]

lemma suggest_ok_minimum (height available_length : ℚ) :
    (suggest_ok height available_length).minimum_option =
      (if (suggest_ok height available_length).standard_option = none ∧
          (suggest_ok height available_length).best_option = none then
        some ⟨max 3 (pyRound (height / 25)),
              round2 (height / ((max 3 (pyRound (height / 25)) : ℤ) : ℚ)), 30,
              round2 ((((max 3 (pyRound (height / 25)) : ℤ) : ℚ) - 1) * 30)⟩
       else none) := by
  simp only [suggest_ok]

lemma validate_inputs_eq_empty {height length : ℚ} {width : Option ℚ} :
    validate_inputs height length width = ("") ↔
    (¬(height ≤ 0) ∧ ¬(500 < height) ∧ ¬(length ≤ 0) ∧ ¬(1000 < length) ∧
     ∀ w, width = some w → ¬(w < 80)) := by
  simp only [validate_inputs]
  rcases width with _ | w
  · split_ifs with h1 h2 h3 h4 <;>
      simp_all [String.intercalate, String.intercalate.go]
  · split_ifs with h1 h2 h3 h4 h5 <;>
      simp_all [String.intercalate, String.intercalate.go] <;>
      try (split_ifs <;> simp_all [String.intercalate.go])

lemma openingTooNarrow_not_mem (height length : ℚ) (width : Option ℚ)
    (angle : Option ℚ) (steps : Option ℤ) (sw sh : Option ℚ) (hp : ℚ)
    (hwid : ∀ w, width = some w → ¬(w < 80)) (x : ℚ) :
    FeasIssue.openingTooNarrow x ∉
      (check_installation_feasibility height length width angle steps sw sh hp).issues := by
  intro hmem
  rcases steps with _ | s
  · simp [check_installation_feasibility] at hmem
  · rcases eq_or_ne s 0 with rfl | hs0
    · simp [check_installation_feasibility] at hmem
    · rcases sw with _ | swv
      · simp [check_installation_feasibility, hs0] at hmem
      · rcases sh with _ | shv
        · simp [check_installation_feasibility, hs0] at hmem
        · by_cases hneg : swv ≤ 0 ∨ shv ≤ 0
          · simp [check_installation_feasibility, hs0, hneg] at hmem
          · simp only [check_installation_feasibility, hs0, hneg] at hmem
            norm_num at hmem
            rcases mem_addIssue hmem with hmem | ⟨-, heq⟩
            · rcases width with _ | wv
              · simp only [] at hmem
                rcases mem_addIssue hmem with hmem | ⟨-, heq⟩
                · rcases mem_addIssue hmem with hmem | ⟨-, heq⟩
                  · rcases mem_addIssue hmem with hmem | ⟨-, heq⟩
                    · rcases mem_addIssue hmem with hmem | ⟨-, heq⟩
                      · rcases mem_addIssue hmem with hmem | ⟨-, heq⟩
                        · rcases angle with _ | av
                          · simp only [] at hmem
                            rcases mem_addIssue hmem with hmem | ⟨-, heq⟩
                            · simp at hmem
                            · exact FeasIssue.noConfusion heq
                          · simp only [] at hmem
                            rcases mem_addIssue hmem with hmem | ⟨-, heq⟩
                            · simp at hmem
                            · exact FeasIssue.noConfusion heq
                        · exact FeasIssue.noConfusion heq
                      · exact FeasIssue.noConfusion heq
                    · exact FeasIssue.noConfusion heq
                  · exact FeasIssue.noConfusion heq
                · exact FeasIssue.noConfusion heq
              · simp only [] at hmem
                rcases mem_addIssue hmem with hmem | ⟨hlt, heq⟩
                · rcases mem_addIssue hmem with hmem | ⟨-, heq⟩
                  · rcases mem_addIssue hmem with hmem | ⟨-, heq⟩
                    · rcases mem_addIssue hmem with hmem | ⟨-, heq⟩
                      · rcases mem_addIssue hmem with hmem | ⟨-, heq⟩
                        · rcases mem_addIssue hmem with hmem | ⟨-, heq⟩
                          · rcases angle with _ | av
                            · simp only [] at hmem
                              rcases mem_addIssue hmem with hmem | ⟨-, heq⟩
                              · simp at hmem
                              · exact FeasIssue.noConfusion heq
                            · simp only [] at hmem
                              rcases mem_addIssue hmem with hmem | ⟨-, heq⟩
                              · simp at hmem
                              · exact FeasIssue.noConfusion heq
                          · exact FeasIssue.noConfusion heq
                        · exact FeasIssue.noConfusion heq
                      · exact FeasIssue.noConfusion heq
                    · exact FeasIssue.noConfusion heq
                  · exact FeasIssue.noConfusion heq
                · rw [FeasIssue.openingTooNarrow.injEq] at heq
                  subst heq
                  exact hwid x rfl hlt
            · exact FeasIssue.noConfusion heq

/-- C6: the best option produced by `suggest_optimal_parameters` has the
maximal step count among all candidates in `[3, 25]` whose riser
`height / stepCount` lies in `[15, 25]` and whose projection
`(stepCount - 1) * 30` fits the available length, and it is the loop's
record for that step count; it is included exactly when such a candidate
exists and either its step count differs from the standard option's step
count `round(height / 20)` or no standard option was included. -/
theorem C6_best_option (height available_length : ℚ) (aw : Option ℚ) (s : Suggestions)
    (hs : suggest_optimal_parameters height available_length aw = .ok s) :
    (∀ b, s.best_option = some b →
      eligibleCandidate height available_length b.steps ∧
      b = mkBestOption height b.steps ∧
      ∀ n, eligibleCandidate height available_length n → n ≤ b.steps) ∧
    (s.best_option ≠ none ↔
      ∃ n, eligibleCandidate height available_length n ∧
        (∀ m, eligibleCandidate height available_length m → m ≤ n) ∧
        (n ≠ pyRound (height / 20) ∨ s.standard_option = none)) := by
  obtain ⟨rfl, -⟩ := suggest_ok_of hs
  have hbest := suggest_ok_best height available_length
  have hspec := bestScan_spec height available_length
  rcases hscan : (bestScan height available_length).2 with _ | bp
  · rw [hscan] at hbest
    constructor
    · intro b hb
      rw [hbest] at hb
      exact Option.noConfusion hb
    · rw [hbest]
      refine ⟨fun hc => absurd rfl hc, ?_⟩
      rintro ⟨n, heln, -, -⟩
      exact absurd heln (hspec.1 hscan n)
  · rw [hscan] at hbest
    simp only [] at hbest
    obtain ⟨g1, g2, g3, g4⟩ := hspec.2 bp hscan
    by_cases hc : (bestScan height available_length).1 ≠ pyRound (height / 20) ∨
        (suggest_ok height available_length).standard_option = none
    · rw [if_pos hc] at hbest
      constructor
      · intro b hb
        rw [hbest, Option.some.injEq] at hb
        subst hb
        exact ⟨g3, g2, g4⟩
      · rw [hbest]
        refine ⟨fun _ => ⟨bp.steps, g3, g4, ?_⟩, fun _ => by simp⟩
        rw [← g1]
        exact hc
    · rw [if_neg hc] at hbest
      push_neg at hc
      constructor
      · intro b hb
        rw [hbest] at hb
        exact Option.noConfusion hb
      · rw [hbest]
        refine ⟨fun hne => absurd rfl hne, ?_⟩
        rintro ⟨n, heln, hmax, hcond⟩
        exfalso
        have hn : n = bp.steps := le_antisymm (g4 n heln) (hmax bp.steps g3)
        rcases hcond with hne | hstd
        · exact hne (by rw [hn, ← g1, hc.1])
        · exact hc.2 hstd

set_option maxRecDepth 4000 in
/-- Witness for `C6_best_option` at `height = 200`,
`available_length = 300`: the produced best option is 11 steps, which is
an eligible candidate. -/
theorem C6_witness : eligibleCandidate 200 300 11 := by
  have hok : suggest_optimal_parameters 200 300 none = .ok (suggest_ok 200 300) := by
    norm_num [suggest_optimal_parameters, pyRound]
  have hscan : bestScan 200 300 = (11, some ⟨11, 909/50, 30, 300⟩) := by
    norm_num [bestScan, bestStep, round2, pyRound, List.range', -Int.self_sub_floor]
  have hb : (suggest_ok 200 300).best_option = some ⟨11, 909/50, 30, 300⟩ := by
    rw [suggest_ok_best, hscan]
    norm_num [pyRound]
  exact ((C6_best_option 200 300 none (suggest_ok 200 300) hok).1
    ⟨11, 909/50, 30, 300⟩ hb).1

/-- C7: a produced suggestion set never contains both a best option and
a minimum option; the minimum option (step count
`max 3 (round(height / 25))`, tread width 30) is emitted exactly when
neither the standard option nor a best option was included. -/
theorem C7_minimum_option (height available_length : ℚ) (aw : Option ℚ) (s : Suggestions)
    (hs : suggest_optimal_parameters height available_length aw = .ok s) :
    ¬(s.best_option ≠ none ∧ s.minimum_option ≠ none) ∧
    (s.minimum_option ≠ none ↔ s.standard_option = none ∧ s.best_option = none) ∧
    (∀ m, s.minimum_option = some m →
      m.steps = max 3 (pyRound (height / 25)) ∧ m.width = 30) := by
  obtain ⟨rfl, -⟩ := suggest_ok_of hs
  have hmin := suggest_ok_minimum height available_length
  by_cases hc : (suggest_ok height available_length).standard_option = none ∧
      (suggest_ok height available_length).best_option = none
  · rw [if_pos hc] at hmin
    refine ⟨?_, ?_, ?_⟩
    · rintro ⟨hb, -⟩
      exact hb hc.2
    · rw [hmin]
      exact ⟨fun _ => hc, fun _ => by simp⟩
    · intro m hm
      rw [hmin, Option.some.injEq] at hm
      subst hm
      exact ⟨rfl, rfl⟩
  · rw [if_neg hc] at hmin
    refine ⟨?_, ?_, ?_⟩
    · rintro ⟨-, hm⟩
      exact hm hmin
    · rw [hmin]
      exact ⟨fun h => absurd rfl h, fun h => absurd h hc⟩
    · intro m hm
      rw [hmin] at hm
      exact Option.noConfusion hm

set_option maxRecDepth 4000 in
/-- Witness for `C7_minimum_option` at `height = 12`,
`available_length = 100`: no standard or best option exists, so the
minimum option is emitted. -/
theorem C7_witness : (suggest_ok 12 100).minimum_option ≠ none := by
  have hok : suggest_optimal_parameters 12 100 none = .ok (suggest_ok 12 100) := by
    norm_num [suggest_optimal_parameters, pyRound]
  have hstd : (suggest_ok 12 100).standard_option = none := by
    simp only [suggest_ok]
    norm_num [pyRound]
  have hscan : bestScan 12 100 = (0, none) := by
    norm_num [bestScan, bestStep, round2, pyRound, List.range', -Int.self_sub_floor]
  have hbest : (suggest_ok 12 100).best_option = none := by
    rw [suggest_ok_best, hscan]
  exact (C7_minimum_option 12 100 none (suggest_ok 12 100) hok).2.1.mpr ⟨hstd, hbest⟩


/-- C4 counterexample: with `height = 200`, `length = 300`,
`step_height = 5` (out of bounds, so step resolution fails), the
early-failure result carries the error message but *also* an angle
field, refuting the claim that it consists of an error message plus a
suggestion set only. -/
theorem C4_counterexample :
    (resOf (calculate_all F0 200 300 none none (some 5) none 1)).error.isSome = true ∧
    (resOf (calculate_all F0 200 300 none none (some 5) none 1)).angle.isSome = true := by
  norm_num [calculate_all, validate_inputs, String.intercalate, calculate_steps,
    suggest_optimal_parameters, pyRound, resOf]

/-- C4 (amended): when step resolution fails inside `calculate_all`
(and the attached suggestion generation itself returns), the result
consists of the error message and the suggestion set together with the
echoed inputs, an empty warnings list, and the angle result computed
before step resolution; no steps, stringer-length, footprint,
feasibility, or parts fields are attached, so no later stage runs. -/
theorem C4_early_failure_amended (F : FloatFns) (height length : ℚ) (width : Option ℚ)
    (angle : Option ℚ) (sh sw : Option ℚ) (lt : ℤ) (msg : String) (ah aw : Option ℚ)
    (sg : Suggestions)
    (hval : validate_inputs height length width = (""))
    (hsteps : calculate_steps height length sh sw = .ok (none, msg, ah, aw))
    (hsugg : suggest_optimal_parameters height length width = .ok sg) :
    calculate_all F height length width angle sh sw lt =
      .ok { inputs := some ⟨height, length, width, angle, sh, sw, lt⟩,
            warnings := some [],
            angle := some ⟨(calculate_angle F height length angle).1,
                           (calculate_angle F height length angle).2,
                           check_angle (calculate_angle F height length angle).1⟩,
            error := some msg,
            suggestions := some sg } := by
  unfold calculate_all
  simp only [hval, hsteps, hsugg]
  norm_num

/-- Witness for `C4_early_failure_amended` at `height = 200`,
`length = 300`, `step_height = 5`. -/
theorem C4_witness :
    calculate_all F0 200 300 none none (some 5) none 1 =
      .ok { inputs := some ⟨200, 300, none, none, some 5, none, 1⟩,
            warnings := some [],
            angle := some ⟨(calculate_angle F0 200 300 none).1,
                           (calculate_angle F0 200 300 none).2,
                           check_angle (calculate_angle F0 200 300 none).1⟩,
            error := some ("Ошибка: высота подступенка должна быть от 15 до 25 см"),
            suggestions := some (suggest_ok 200 300) } :=
  C4_early_failure_amended F0 200 300 none none (some 5) none 1
    ("Ошибка: высота подступенка должна быть от 15 до 25 см") none none (suggest_ok 200 300)
    (by norm_num [validate_inputs, String.intercalate])
    (by norm_num [calculate_steps])
    (by norm_num [suggest_optimal_parameters, pyRound])

/-- C10: in every run of `calculate_all` that returns a result with a
feasibility report, the opening-width issue (opening width present and
below 80) never occurs among the issues: raw input validation rejects
any present width below 80 before the feasibility stage runs, so that
branch of `check_installation_feasibility` is unreachable through the
public entry point. -/
theorem C10_width_issue_unreachable (F : FloatFns) (height length : ℚ) (width : Option ℚ)
    (angle : Option ℚ) (sh sw : Option ℚ) (lt : ℤ) (r : CalcResult) (f : Feasibility)
    (hca : calculate_all F height length width angle sh sw lt = .ok r)
    (hf : r.feasibility = some f) (x : ℚ) :
    FeasIssue.openingTooNarrow x ∉ f.issues := by
  simp only [calculate_all] at hca
  split_ifs at hca with hval
  · rw [Except.ok.injEq] at hca
    subst hca
    simp at hf
  · push_neg at hval
    have hwid := (validate_inputs_eq_empty.mp hval).2.2.2.2
    rcases hcs : calculate_steps height length sh sw with e | ⟨steps?, msg, ah, aw⟩
    · simp only [hcs] at hca
      exact Except.noConfusion hca
    · simp only [hcs] at hca
      rcases steps? with _ | steps
      · simp only [] at hca
        rcases hsg : suggest_optimal_parameters height length width with e | sg
        · simp only [hsg] at hca
          exact Except.noConfusion hca
        · simp only [hsg] at hca
          rw [Except.ok.injEq] at hca
          subst hca
          simp at hf
      · simp only [] at hca
        split_ifs at hca with hfp hp1 hp2
        · rcases hsg : suggest_optimal_parameters height length width with e | sg
          · simp only [hsg] at hca
            exact Except.noConfusion hca
          · simp only [hsg] at hca
            rw [Except.ok.injEq] at hca
            subst hca
            simp only [Option.some.injEq] at hf
            subst hf
            exact openingTooNarrow_not_mem height length width _ _ _ _ _ hwid x
        · rw [Except.ok.injEq] at hca
          subst hca
          simp only [Option.some.injEq] at hf
          subst hf
          exact openingTooNarrow_not_mem height length width _ _ _ _ _ hwid x
        · rcases hsg : suggest_optimal_parameters height length width with e | sg
          · simp only [hsg] at hca
            exact Except.noConfusion hca
          · simp only [hsg] at hca
            rw [Except.ok.injEq] at hca
            subst hca
            simp only [Option.some.injEq] at hf
            subst hf
            exact openingTooNarrow_not_mem height length width _ _ _ _ _ hwid x
        · rw [Except.ok.injEq] at hca
          subst hca
          simp only [Option.some.injEq] at hf
          subst hf
          exact openingTooNarrow_not_mem height length width _ _ _ _ _ hwid x

/-- Witness for `C10_width_issue_unreachable`: a full run at
`height = 270`, `length = 400`, `width = 100` produces a feasibility
report, and no opening-width issue is in it. -/
theorem C10_witness :
    FeasIssue.openingTooNarrow 50 ∉
      (feasOf (calculate_all F0 270 400 (some 100) none none none 1)).issues := by
  refine C10_width_issue_unreachable F0 270 400 (some 100) none none none 1
    (resOf (calculate_all F0 270 400 (some 100) none none none 1))
    (feasOf (calculate_all F0 270 400 (some 100) none none none 1)) ?_ ?_ 50
  · norm_num [calculate_all, validate_inputs, String.intercalate, calculate_steps,
      suggest_optimal_parameters, pyRound, resOf, calculate_angle, check_angle,
      calculate_length, calculate_ladder_footprint, projection_of, roundIfTruthy,
      calculate_parts, round2, F0, orZeroQ, orZeroZ, Option.getD,
      check_installation_feasibility, addIssue, -Int.self_sub_floor]
  · norm_num [calculate_all, validate_inputs, String.intercalate, calculate_steps,
      suggest_optimal_parameters, pyRound, resOf, feasOf, calculate_angle, check_angle,
      calculate_length, calculate_ladder_footprint, projection_of, roundIfTruthy,
      calculate_parts, round2, F0, orZeroQ, orZeroZ, Option.getD,
      check_installation_feasibility, addIssue, -Int.self_sub_floor]

end LadderBot
